import Mathlib

/-!
Shallow embedding of the yakima Icecast source client (src/main.go) and
verification of its specification claims.

Modelling conventions:
* Go strings are modelled as Lean `String` (byte-level details only matter for
  the base64 input, which is ASCII here); raw socket bytes are `List Nat`.
* External effects (the media probe, the ffmpeg subprocess, the TCP socket)
  are parameters of the model: a directory entry carries the facts the code
  branches on (`isDir`, whether the probe succeeds, the transcoded payload,
  the pipeline exit status), and the handshake reply is an input.
* The unbounded `for` loop of `main` is modelled with explicit fuel, one unit
  per Go loop iteration.
-/

/-! ## Configuration constants (src/main.go lines 19-36) -/

def PlaybackDirectory : String := "/home/alis/Music/"

def Loop : Bool := true

def Shuffle : Bool := false

def IcecastAddress : String := "127.0.0.1"

def IcecastPort : Nat := 8999

def IcecastUser : String := "source"

def IcecastPassword : String := "1234"

/-! ## Metadata reader (src/main.go lines 39-99) -/

/-- The `AudioFileQuality` struct (main.go lines 39-44). -/
structure AudioFileQuality where
  bitrate : Nat
  sampleRate : Nat
  channelMode : String
  format : String
deriving DecidableEq

/-- The `AudioFile` struct (main.go lines 47-52). -/
structure AudioFile where
  filename : String
  path : String
  duration : Nat
  originalQuality : AudioFileQuality
deriving DecidableEq

/-- Go `strings.Split` on a single separator character: groups of characters
between occurrences of `sep` (never an empty group list). -/
def splitOnChar (sep : Char) : List Char → List (List Char)
  | [] => [[]]
  | c :: rest =>
      if c = sep then [] :: splitOnChar sep rest
      else
        match splitOnChar sep rest with
        | [] => [[c]]
        | g :: gs => (c :: g) :: gs

/-- The last group, or `d` for an empty group list (Go indexes
`path[len(path)-1]`; `strings.Split` never returns an empty slice). -/
def lastOr (d : List Char) : List (List Char) → List Char
  | [] => d
  | [x] => x
  | _ :: y :: ys => lastOr d (y :: ys)

/-- Model of `getFileNameFromPath` (main.go lines 59-62): split on the path
separator (`os.PathSeparator`, `/` on the target platform) and return the last
component. -/
def getFileNameFromPath (pathToFile : String) : String :=
  String.mk (lastOr [] (splitOnChar '/' pathToFile.toList))

/-- The raw parameter strings returned by the mediainfo probe for the audio
stream of a file; inputs to `readAudioFile` (the probe itself is an external
library call). -/
structure ProbeParams where
  fileExtension : String
  bitRate : String
  duration : String
  channels : String
  sampleRate : String
deriving DecidableEq

/-- The decimal value of an ASCII digit, or `none`. -/
def decDigit (c : Char) : Option Nat :=
  if 48 ≤ c.toNat ∧ c.toNat ≤ 57 then some (c.toNat - 48) else none

def atoiAux : List Char → Nat → Option Nat
  | [], acc => some acc
  | c :: rest, acc =>
      match decDigit c with
      | none => none
      | some d => atoiAux rest (acc * 10 + d)

/-- Go `strconv.Atoi` as used in main.go: the error is discarded, so a failed
parse (empty or non-digit input) leaves the zero value; the mediainfo values
parsed here are non-negative decimals. -/
def atoi (s : String) : Nat :=
  match s.toList with
  | [] => 0
  | c :: rest => (atoiAux (c :: rest) 0).getD 0

/-- Model of `readAudioFile` (main.go lines 65-99): `none` models the `nil, false`
return when `mediainfo.Open` fails (`probe = none`); otherwise the `AudioFile`
is built from the probed parameters.  Lines 78-83: the channel mode is
"stereo" exactly when the `Channel(s)` parameter is the string "2", else
"mono". -/
def readAudioFile (pathToFile : String) (probe : Option ProbeParams) : Option AudioFile :=
  match probe with
  | none => none
  | some p =>
      some
        { filename := getFileNameFromPath pathToFile
          path := pathToFile
          duration := atoi p.duration / 1000
          originalQuality :=
            { bitrate := atoi p.bitRate / 1000
              sampleRate := atoi p.sampleRate
              channelMode := if p.channels = "2" then "stereo" else "mono"
              format := p.fileExtension } }

/-! ## Base64 and the handshake message (src/main.go lines 111-123) -/

/-- The RFC 4648 standard base64 alphabet used by Go `base64.StdEncoding`. -/
def base64Alphabet : List Char :=
  "ABCDEFGHIJKLMNOPQRSTUVWXYZabcdefghijklmnopqrstuvwxyz0123456789+/".toList

def base64Char (i : Nat) : Char :=
  base64Alphabet.getD i 'A'

/-- Go `base64.StdEncoding.EncodeToString` over a byte list: 3 input bytes
become 4 alphabet characters, with `=` padding for a 1- or 2-byte tail. -/
def base64EncodeBytes : List Nat → List Char
  | [] => []
  | [b1] =>
      [base64Char (b1 / 4), base64Char (b1 % 4 * 16), '=', '=']
  | [b1, b2] =>
      [base64Char (b1 / 4), base64Char (b1 % 4 * 16 + b2 / 16),
       base64Char (b2 % 16 * 4), '=']
  | b1 :: b2 :: b3 :: rest =>
      base64Char (b1 / 4) :: base64Char (b1 % 4 * 16 + b2 / 16) ::
      base64Char (b2 % 16 * 4 + b3 / 64) :: base64Char (b3 % 64) ::
      base64EncodeBytes rest

/-- Base64 of a string's bytes (the credentials here are ASCII, so code points
coincide with UTF-8 bytes). -/
def base64Encode (s : String) : String :=
  String.mk (base64EncodeBytes (s.toList.map Char.toNat))

/-- The handshake written onto the freshly dialed connection, in the exact
order of the `fmt.Fprintf` calls of `beginIcecastConnection`
(main.go lines 111-123), parameterised by the address and credentials the
source passes in. -/
def handshakeMessage (address user password : String) : String :=
  "PUT /stream.mp3 HTTP/1.1\r\n" ++
  ("Host: http://" ++ address ++ "\r\n") ++
  ("Authorization: Basic " ++ base64Encode (user ++ ":" ++ password) ++ "\r\n") ++
  "User-Agent: Yakima/1.0\r\n" ++
  "Accept: */*\r\n" ++
  "Transfer-Encoding: chunked\r\n" ++
  "Content-Type: audio/mpeg\r\n" ++
  "Ice-Public: 1\r\n" ++
  "Ice-Genre: Yakima\r\n" ++
  ("Expect: 100-continue\r\n" ++ "\r\n")

/-- The header lines the spec's wire-format section prescribes, in its stated
order (spec section 6), ending with the empty line that terminates the header
block. -/
def handshakeLinesSpec (address user password : String) : List String :=
  ["PUT /stream.mp3 HTTP/1.1",
   "Host: http://" ++ address,
   "Authorization: Basic " ++ base64Encode (user ++ ":" ++ password),
   "User-Agent: Yakima/1.0",
   "Accept: */*",
   "Transfer-Encoding: chunked",
   "Content-Type: audio/mpeg",
   "Ice-Public: 1",
   "Ice-Genre: Yakima",
   "Expect: 100-continue",
   ""]

/-- Join lines with CRLF terminators: each line is followed by `"\r\n"`. -/
def joinCRLF (lines : List String) : String :=
  lines.foldr (fun l acc => l ++ "\r\n" ++ acc) ""

/-! ## Handshake response check (src/main.go lines 125-137) -/

/-- Go `strings.HasPrefix s p` (does `s` start with `p`), on character
lists. -/
def goStartsWith : List Char → List Char → Bool
  | _, [] => true
  | [], _ :: _ => false
  | c :: s, p :: ps => decide (p = c) && goStartsWith s ps

/-- Go `strings.Contains hay nee` (does `hay` contain `nee` as a substring),
on character lists. -/
def goContains (nee : List Char) : List Char → Bool
  | [] => nee.isEmpty
  | c :: rest => goStartsWith (c :: rest) nee || goContains nee rest

/-- The literal continuation status line searched for at main.go line 129. -/
def continueToken : List Char :=
  "HTTP/1.1 100 Continue".toList

/-- The readiness check of `beginIcecastConnection` on the (bounded, NUL
padded) first read of the reply (main.go lines 125-129). -/
def handshakeReady (reply : List Char) : Bool :=
  goContains continueToken reply

/-- The outcome of the response inspection in `beginIcecastConnection`
(main.go lines 125-137): the connection is returned ready (`Except.ok`) when
the reply contains the continuation line, otherwise the process exits with
status 3 (`Except.error 3`). -/
def icecastHandshakeOutcome (reply : List Char) : Except Nat Unit :=
  if handshakeReady reply then Except.ok () else Except.error 3

/-! ## Chunked-transfer framing vs the actual write path
(src/main.go lines 119 and 185-190) -/

/-- ASCII codes of the hexadecimal representation of `n` (the length prefix of
a chunk in chunked transfer encoding). -/
def hexAscii (n : Nat) : List Nat :=
  (Nat.toDigits 16 n).map Char.toNat

/-- One block of payload framed per chunked transfer encoding as the spec
describes it: hexadecimal length prefix, CRLF, the payload, trailing CRLF. -/
def chunkFrame (b : List Nat) : List Nat :=
  hexAscii b.length ++ [13, 10] ++ b ++ [13, 10]

/-- The bytes actually placed on the broadcast socket when a block `b` of
transcoded audio is written during STREAMING: `main` connects ffmpeg's stdout
directly to the TCP connection (`cmd.Stdout = icecastInstance`,
main.go line 187), so every block is copied onto the socket verbatim with no
additional framing. -/
def socketBytesOfWrite (b : List Nat) : List Nat :=
  b

/-! ## The supervisor loop (src/main.go lines 140-194) -/

/-- One directory entry as the loop observes it, together with the outcomes of
the external effects the code triggers on it: whether the entry is a
directory, whether the mediainfo probe succeeds (and with which seconds of
duration for the log line), the transcoded payload bytes ffmpeg emits for it,
and whether the ffmpeg pipeline exits successfully (`runOk`). -/
structure Entry where
  name : String
  isDir : Bool
  probeOk : Bool
  duration : Nat
  payload : List Nat
  runOk : Bool
deriving DecidableEq

/-- Observable events of a run: a line printed to stdout, or a track's audio
payload written onto the broadcast connection (tagged with the index of the
directory entry it came from). -/
inductive Event where
  | log (line : String)
  | write (idx : Nat) (payload : List Nat)
deriving DecidableEq

/-- The `cmd.String()` line of the ffmpeg invocation (main.go lines 178-179); the
resolved absolute path of the ffmpeg binary is abstracted to "ffmpeg". -/
def ffmpegCmdString (path : String) : String :=
  "ffmpeg -re -i " ++ path ++ " -f mp3 -c:a mp3 -b:a 128k -"

/-- The events of one loop iteration on entry `e` at index `idx`
(main.go lines 165-193): directories are skipped silently; a probe failure
prints the two diagnostics (from `readAudioFile` line 68 and `main` line 172)
and skips; otherwise the "Read ..." line and the command line are printed and
the pipeline's payload is written to the connection.  The pipeline's exit
status (`e.runOk`) is not consulted anywhere: `cmd.Run()`'s error is
discarded at main.go line 189. -/
def entryEvents (e : Entry) (idx : Nat) : List Event :=
  if e.isDir then []
  else if e.probeOk = false then
    [Event.log ("Cannot read \x22" ++ PlaybackDirectory ++ e.name ++ "\x22, does this file exist?"),
     Event.log ("Error reading " ++ e.name)]
  else
    [Event.log ("Read " ++ e.name ++ " (~" ++ toString (e.duration / 60) ++ " min)"),
     Event.log (ffmpegCmdString (PlaybackDirectory ++ e.name)),
     Event.write idx e.payload]

/-- The `for` loop of `main` (lines 154-194), with explicit fuel (one unit per
Go loop iteration).  `all` is the directory listing, `suffix` the entries not
yet visited in the current pass (`suffix = all.drop idx` where `idx` mirrors
`fileIndex`), and `idx` the index of the head of `suffix`.  When the cursor
reaches the end (`fileIndex == len(files)`, i.e. `suffix = []`): with
`loop = true` the index wraps to the start (`fileIndex = -1; continue`), with
`loop = false` the loop breaks.  Returns the events emitted within the given
fuel and `true` iff the loop terminated (reached `break`). -/
def mainLoop (all : List Entry) (loop : Bool) : Nat → List Entry → Nat → List Event × Bool
  | 0, _, _ => ([], false)
  | fuel + 1, [], _ => if loop then mainLoop all loop fuel all 0 else ([], true)
  | fuel + 1, e :: rest, idx =>
      let r := mainLoop all loop fuel rest (idx + 1)
      (entryEvents e idx ++ r.1, r.2)

/-- The events of one full pass over `entries` starting at index `idx`. -/
def passEvents : List Entry → Nat → List Event
  | [], _ => []
  | e :: rest, idx => entryEvents e idx ++ passEvents rest (idx + 1)

/-- Indices of the tracks actually streamed, in order. -/
def streamedIndices (events : List Event) : List Nat :=
  events.filterMap fun ev =>
    match ev with
    | Event.write idx _ => some idx
    | Event.log _ => none

/-- The audio payload bytes placed on the broadcast connection, in order. -/
def audioBytesOf (events : List Event) : List Nat :=
  (events.filterMap fun ev =>
    match ev with
    | Event.write _ payload => some payload
    | Event.log _ => none).flatten

/-- Indices (from `idx`) of the playable entries of a listing: not a
directory, and probeable. -/
def playableIndices : List Entry → Nat → List Nat
  | [], _ => []
  | e :: rest, idx =>
      if e.isDir = false ∧ e.probeOk = true then idx :: playableIndices rest (idx + 1)
      else playableIndices rest (idx + 1)

/-! ## The whole process (src/main.go lines 140-153 around the loop) -/

/-- One run of `main`, parameterised by the outcomes of its external effects:
whether `ioutil.ReadDir` succeeds (`dirOk`), whether `net.Dial` succeeds
(`dialOk`, with the error text `dialErr`), the bounded first read of the
handshake reply, the directory listing, the loop flag and the loop fuel.
Returns the exit status of a fatal path (`none` when no fatal exit is taken)
and the emitted events, following main.go lines 140-153: directory failure
exits 1 before dialing; dial failure exits 2 (`beginIcecastConnection`
lines 104-109); a reply without the continuation line exits 3 (lines 133-135);
only then does the streaming loop run. -/
def yakimaRun (dirOk dialOk : Bool) (dialErr : String) (reply : List Char)
    (files : List Entry) (loop : Bool) (fuel : Nat) : Option Nat × List Event :=
  if dirOk = false then
    (some 1,
     [Event.log ("Could not read directory \x22" ++ PlaybackDirectory ++
        "\x22, perhaps I don\x27t have read access?")])
  else if dialOk = false then
    (some 2, [Event.log "Couldn\x27t establish connection with Icecast.", Event.log dialErr])
  else if handshakeReady reply = false then
    (some 3, [Event.log "Icecast server refused data transfer:", Event.log (String.mk reply)])
  else
    (none, (mainLoop files loop fuel files 0).1)

/-! ## Helper lemmas -/

theorem goStartsWith_iff (p : List Char) : ∀ s, goStartsWith s p = true ↔ p <+: s := by
  induction p with
  | nil => intro s; cases s <;> simp [goStartsWith]
  | cons a ps ih =>
      intro s
      cases s with
      | nil => simp [goStartsWith]
      | cons c t => simp [goStartsWith, List.cons_prefix_cons, ih]

theorem goContains_iff (nee : List Char) : ∀ hay, goContains nee hay = true ↔ nee <:+: hay := by
  intro hay
  induction hay with
  | nil => simp [goContains, List.isEmpty_iff, List.infix_nil]
  | cons c rest ih =>
      simp [goContains, List.infix_cons_iff, goStartsWith_iff, ih]

/-- With `loop = false`, one pass worth of fuel (plus any surplus `f`) runs the
remaining suffix to the `break`: the emitted events are exactly the pass events
and the loop terminates. -/
theorem mainLoop_false_pass (all : List Entry) :
    ∀ (suffix : List Entry) (idx f : Nat),
      mainLoop all false (suffix.length + 1 + f) suffix idx = (passEvents suffix idx, true) := by
  intro suffix
  induction suffix with
  | nil =>
      intro idx f
      have h : ([] : List Entry).length + 1 + f = f + 1 := by
        simp only [List.length_nil]; omega
      rw [h]
      simp [mainLoop, passEvents]
  | cons e rest ih =>
      intro idx f
      have h : (e :: rest).length + 1 + f = (rest.length + 1 + f) + 1 := by
        simp only [List.length_cons]; omega
      rw [h]
      simp [mainLoop, passEvents, ih (idx + 1) f]

/-- With `loop = true`, one pass worth of fuel runs the remaining suffix and
wraps to the start of the listing with the surplus fuel `f`. -/
theorem mainLoop_true_pass (all : List Entry) :
    ∀ (suffix : List Entry) (idx f : Nat),
      mainLoop all true (suffix.length + 1 + f) suffix idx =
        (passEvents suffix idx ++ (mainLoop all true f all 0).1,
         (mainLoop all true f all 0).2) := by
  intro suffix
  induction suffix with
  | nil =>
      intro idx f
      have h : ([] : List Entry).length + 1 + f = f + 1 := by
        simp only [List.length_nil]; omega
      rw [h]
      simp [mainLoop, passEvents]
  | cons e rest ih =>
      intro idx f
      have h : (e :: rest).length + 1 + f = (rest.length + 1 + f) + 1 := by
        simp only [List.length_cons]; omega
      rw [h]
      simp [mainLoop, passEvents, ih (idx + 1) f]

/-- With `loop = true`, `m` cycles worth of fuel produce `m` identical passes
over the listing, and the loop has not terminated. -/
theorem mainLoop_true_cycles (files : List Entry) :
    ∀ m : Nat, mainLoop files true (m * (files.length + 1)) files 0 =
      ((List.replicate m (passEvents files 0)).flatten, false) := by
  intro m
  induction m with
  | zero => simp [mainLoop]
  | succ k ih =>
      have h : (k + 1) * (files.length + 1) = files.length + 1 + k * (files.length + 1) := by
        ring
      rw [h, mainLoop_true_pass files files 0 (k * (files.length + 1)), ih]
      simp [List.replicate_succ]

theorem streamedIndices_append (a b : List Event) :
    streamedIndices (a ++ b) = streamedIndices a ++ streamedIndices b := by
  simp [streamedIndices]

theorem streamedIndices_replicate_flatten (m : Nat) (evs : List Event) :
    streamedIndices ((List.replicate m evs).flatten) =
      (List.replicate m (streamedIndices evs)).flatten := by
  induction m with
  | zero => simp [streamedIndices]
  | succ k ih => simp [List.replicate_succ, streamedIndices_append, ih]

/-- The tracks streamed in one pass are exactly the playable entries. -/
theorem streamedIndices_passEvents (files : List Entry) :
    ∀ idx, streamedIndices (passEvents files idx) = playableIndices files idx := by
  induction files with
  | nil => intro idx; simp [passEvents, streamedIndices, playableIndices]
  | cons e rest ih =>
      intro idx
      cases hd : e.isDir <;> cases hp : e.probeOk <;>
        simp [passEvents, entryEvents, streamedIndices_append, playableIndices, hd, hp,
          streamedIndices] <;>
        exact ih (idx + 1)

/-- When every entry is playable, the playable indices starting at `idx` are
the consecutive indices. -/
theorem playableIndices_all (files : List Entry) :
    (∀ e ∈ files, e.isDir = false ∧ e.probeOk = true) →
    ∀ idx, playableIndices files idx = List.range' idx files.length := by
  induction files with
  | nil => intro _ idx; simp [playableIndices]
  | cons e rest ih =>
      intro h idx
      have he := h e (by simp)
      have hrest : ∀ x ∈ rest, x.isDir = false ∧ x.probeOk = true := by
        intro x hx; exact h x (by simp [hx])
      simp [playableIndices, he.1, he.2, ih hrest (idx + 1), List.range'_succ]

/-- With `loop = true` and no playable entry (every entry a directory — in
particular an empty listing), the loop never terminates and emits no event,
whatever the fuel. -/
theorem mainLoop_allDirs_spins (all : List Entry) (hall : ∀ e ∈ all, e.isDir = true) :
    ∀ (fuel : Nat) (suffix : List Entry) (idx : Nat), (∀ e ∈ suffix, e.isDir = true) →
      mainLoop all true fuel suffix idx = ([], false) := by
  intro fuel
  induction fuel with
  | zero => intro suffix idx _; rfl
  | succ k ih =>
      intro suffix idx h
      cases suffix with
      | nil => simpa [mainLoop] using ih all 0 hall
      | cons e rest =>
          have he : e.isDir = true := h e (by simp)
          have hrest : ∀ x ∈ rest, x.isDir = true := by
            intro x hx; exact h x (by simp [hx])
          simp [mainLoop, entryEvents, he, ih rest (idx + 1) hrest]

/-- Overwrite the pipeline exit status of an entry. -/
def setRunOk (b : Bool) (e : Entry) : Entry :=
  { e with runOk := b }

theorem entryEvents_setRunOk (b : Bool) (e : Entry) (idx : Nat) :
    entryEvents (setRunOk b e) idx = entryEvents e idx := rfl

/-- The loop's behaviour does not depend on any pipeline exit status:
`cmd.Run()`'s error is discarded (main.go line 189). -/
theorem mainLoop_setRunOk (b : Bool) (all : List Entry) (loop : Bool) :
    ∀ (fuel : Nat) (suffix : List Entry) (idx : Nat),
      mainLoop (all.map (setRunOk b)) loop fuel (suffix.map (setRunOk b)) idx =
        mainLoop all loop fuel suffix idx := by
  intro fuel
  induction fuel with
  | zero => intro suffix idx; rfl
  | succ k ih =>
      intro suffix idx
      cases suffix with
      | nil => simp [mainLoop, ih all 0]
      | cons e rest =>
          simp [mainLoop, entryEvents_setRunOk, ih rest (idx + 1)]

/-! ## Concrete fixtures for counterexamples and witnesses -/

/-- A playable track whose pipeline succeeds. -/
def trackOk : Entry :=
  { name := "y.mp3", isDir := false, probeOk := true, duration := 30, payload := [8], runOk := true }

/-- A playable track whose transcode pipeline (and hence its writing of bytes
onto the connection) fails. -/
def trackFail : Entry :=
  { name := "x.mp3", isDir := false, probeOk := true, duration := 30, payload := [7], runOk := false }

/-- A directory entry (not playable). -/
def dirEntry : Entry :=
  { name := "subdir", isDir := true, probeOk := true, duration := 0, payload := [], runOk := true }

/-- A playable track carrying the payload bytes of "abc". -/
def sampleTrack : Entry :=
  { name := "t.mp3", isDir := false, probeOk := true, duration := 10,
    payload := [97, 98, 99], runOk := true }

/-- A playable track with a failing pipeline, for the logging claim. -/
def pipeFail : Entry :=
  { name := "p.mp3", isDir := false, probeOk := true, duration := 125,
    payload := [5, 6], runOk := false }

/-- Probe parameters reporting six channels. -/
def probeSix : ProbeParams :=
  { fileExtension := "flac", bitRate := "900000", duration := "120000",
    channels := "6", sampleRate := "44100" }

/-- The audio file `readAudioFile` builds from `probeSix`. -/
def audioSix : AudioFile :=
  { filename := "track.flac", path := "/home/alis/Music/track.flac", duration := 120,
    originalQuality :=
      { bitrate := 900, sampleRate := 44100, channelMode := "mono", format := "flac" } }

/-! ## Claim theorems -/

/-- C1 (code bug).  The claim: every block of audio bytes written during
STREAMING is placed on the socket wrapped with a hexadecimal length prefix and
a trailing delimiter per chunked transfer encoding.  The code declares
`Transfer-Encoding: chunked` in its own handshake (main.go line 119) but then
connects the pipeline's stdout directly to the raw socket (line 187), so the
bytes placed on the socket for the block [97, 98, 99] ("abc") are the unframed
[97, 98, 99] and not the chunked framing [51, 13, 10, 97, 98, 99, 13, 10]
("3" CRLF "abc" CRLF); the loop's write events likewise carry the raw
payload. -/
theorem writes_unframed_despite_chunked_header :
    socketBytesOfWrite [97, 98, 99] = [97, 98, 99] ∧
    chunkFrame [97, 98, 99] = [51, 13, 10, 97, 98, 99, 13, 10] ∧
    socketBytesOfWrite [97, 98, 99] ≠ chunkFrame [97, 98, 99] ∧
    audioBytesOf (entryEvents sampleTrack 0) = sampleTrack.payload := by
  refine ⟨rfl, by decide, by decide, by decide⟩

/-- C2 counterexample.  The claim says a write failure during STREAMING is
fatal: the process transitions to FAILED and performs no further track
iterations.  In the code the error of `cmd.Run()` is discarded
(main.go line 189): with the first track's pipeline/write failing
(`trackFail.runOk = false`), the loop still performs a further track iteration,
streams the next candidate (index 1), and ends in the normal `break` — there is
no FAILED transition. -/
theorem write_failure_then_next_track :
    streamedIndices (mainLoop [trackFail, trackOk] false 3 [trackFail, trackOk] 0).1 = [0, 1] ∧
    (mainLoop [trackFail, trackOk] false 3 [trackFail, trackOk] 0).2 = true ∧
    trackFail.runOk = false := by decide

/-- C2 amended.  A failed write/pipeline is ignored: for any listing, whatever
the per-track pipeline/write outcomes (`runOk` flags, in particular failing
ones), the ready process takes no fatal exit, the Supervisor iterates every
playable candidate (the streamed indices are exactly the playable indices,
which do not depend on the outcomes), and the loop terminates normally; it
never attempts reconnection — no reconnect path exists in the model, the
connection is dialed once before the loop. -/
theorem write_failure_ignored (dialErr : String) (reply : List Char) (files : List Entry)
    (f : Nat) (hr : handshakeReady reply = true) :
    (yakimaRun true true dialErr reply files false (files.length + 1 + f)).1 = none ∧
    streamedIndices (yakimaRun true true dialErr reply files false (files.length + 1 + f)).2 =
      playableIndices files 0 ∧
    (mainLoop files false (files.length + 1 + f) files 0).2 = true := by
  have hm := mainLoop_false_pass files files 0 f
  refine ⟨by simp [yakimaRun, hr], ?_, by rw [hm]⟩
  simp [yakimaRun, hr, hm, streamedIndices_passEvents]

/-- Witness for the amended C2 theorem: a single failing track, a reply
containing the continuation line. -/
theorem write_failure_ignored_witness :
    (yakimaRun true true "refused" continueToken [trackFail] false
        ([trackFail].length + 1 + 0)).1 = none ∧
    streamedIndices (yakimaRun true true "refused" continueToken [trackFail] false
        ([trackFail].length + 1 + 0)).2 = playableIndices [trackFail] 0 ∧
    (mainLoop [trackFail] false ([trackFail].length + 1 + 0) [trackFail] 0).2 = true :=
  write_failure_ignored "refused" continueToken [trackFail] 0 (by decide)

/-- C3 (code bug).  The claim (and spec section 8) requires that with
`Loop = true` and a listing with zero playable entries the Supervisor
terminates or backs off rather than iterating forever with no I/O.  The code
spins: for EVERY fuel bound the loop has neither terminated nor emitted a
single event (no write, no log).  An empty listing is the vacuous case of the
hypothesis. -/
theorem empty_queue_spins_forever (files : List Entry)
    (hall : ∀ e ∈ files, e.isDir = true) (fuel : Nat) :
    mainLoop files true fuel files 0 = ([], false) :=
  mainLoop_allDirs_spins files hall fuel files 0 hall

/-- Witness for the C3 theorem: one subdirectory entry, fuel 100. -/
theorem empty_queue_spins_forever_witness :
    mainLoop [dirEntry] true 100 [dirEntry] 0 = ([], false) :=
  empty_queue_spins_forever [dirEntry] (by decide) 100

/-- C4.  `Open` returns a ready session iff the bounded first read of the
reply contains the literal substring "HTTP/1.1 100 Continue" (as a list-infix
of the read characters); every other reply — empty and garbled reads
included — is fatal with the handshake-rejection status 3. -/
theorem open_ready_iff_continue (reply : List Char) :
    (icecastHandshakeOutcome reply = Except.ok () ↔ continueToken <:+: reply) ∧
    (icecastHandshakeOutcome reply = Except.error 3 ↔ ¬ continueToken <:+: reply) := by
  cases hb : handshakeReady reply with
  | true =>
      have hi : continueToken <:+: reply := (goContains_iff continueToken reply).mp hb
      simp [icecastHandshakeOutcome, hb, hi]
  | false =>
      have hi : ¬ continueToken <:+: reply := by
        intro hc
        have hgc := (goContains_iff continueToken reply).mpr hc
        simp [handshakeReady] at hb
        simp [hb] at hgc
      simp [icecastHandshakeOutcome, hb, hi]

/-- Witness for the C4 theorem: an exact continuation reply is accepted, a 401
reply is rejected with status 3. -/
theorem open_ready_iff_continue_witness :
    icecastHandshakeOutcome ("HTTP/1.1 100 Continue".toList) = Except.ok () ∧
    icecastHandshakeOutcome ("HTTP/1.1 401 Unauthorized".toList) = Except.error 3 :=
  ⟨(open_ready_iff_continue ("HTTP/1.1 100 Continue".toList)).1.mpr
      ((goContains_iff continueToken ("HTTP/1.1 100 Continue".toList)).mp (by decide)),
   (open_ready_iff_continue ("HTTP/1.1 401 Unauthorized".toList)).2.mpr
      (fun hc => absurd
        ((goContains_iff continueToken ("HTTP/1.1 401 Unauthorized".toList)).mpr hc)
        (by decide))⟩

/-- C5.  The handshake consists exactly, in order, of the request line
`PUT /stream.mp3 HTTP/1.1` and the headers Host, Authorization, User-Agent,
Accept, Transfer-Encoding, Content-Type, Ice-Public, Ice-Genre and
Expect: 100-continue, each line CRLF-terminated and the block closed by an
empty line; the Authorization value is the base64 encoding of
user, colon, password — for the configured credentials "source":"1234" it is
"c291cmNlOjEyMzQ=". -/
theorem handshake_wire_format (address user password : String) :
    handshakeMessage address user password =
      joinCRLF (handshakeLinesSpec address user password) ∧
    base64Encode (IcecastUser ++ ":" ++ IcecastPassword) = "c291cmNlOjEyMzQ=" := by
  constructor
  · simp [handshakeMessage, handshakeLinesSpec, joinCRLF, String.append_assoc]
    rw [show ("PUT /stream.mp3 HTTP/1.1\r\n" : String) =
        "PUT /stream.mp3 HTTP/1.1" ++ "\r\n" by decide,
      String.append_assoc]
  · decide

/-- C6.  With Loop=true and a queue of N > 0 playable tracks, immediately
after the track at index N-1 completes the Supervisor selects index 0 again,
indefinitely: over any m full cycles the streamed indices are exactly m copies
of 0..N-1 in order (and the loop has not terminated).  With Loop=false, once
the cursor passes the last entry the loop ends (`break`) and — whatever
surplus fuel remains — the run is exactly the one-pass events, so no further
track is selected and no further byte written; the one pass streams exactly
the indices 0..N-1. -/
theorem loop_wraps_and_done (files : List Entry) (m f : Nat)
    (hall : ∀ e ∈ files, e.isDir = false ∧ e.probeOk = true) (_hn : 0 < files.length) :
    streamedIndices (mainLoop files true (m * (files.length + 1)) files 0).1 =
      (List.replicate m (List.range files.length)).flatten ∧
    (mainLoop files true (m * (files.length + 1)) files 0).2 = false ∧
    mainLoop files false (files.length + 1 + f) files 0 = (passEvents files 0, true) ∧
    streamedIndices (passEvents files 0) = List.range files.length := by
  have hc := mainLoop_true_cycles files m
  have hp : streamedIndices (passEvents files 0) = List.range files.length := by
    rw [streamedIndices_passEvents files 0, playableIndices_all files hall 0,
      ← List.range_eq_range']
  refine ⟨?_, by rw [hc], mainLoop_false_pass files files 0 f, hp⟩
  rw [hc]
  simp [streamedIndices_replicate_flatten, hp]

/-- Witness for the C6 theorem: two playable tracks, two full cycles, no
surplus fuel. -/
theorem loop_wraps_and_done_witness :
    streamedIndices (mainLoop [trackOk, sampleTrack] true
        (2 * ([trackOk, sampleTrack].length + 1)) [trackOk, sampleTrack] 0).1 =
      (List.replicate 2 (List.range [trackOk, sampleTrack].length)).flatten ∧
    (mainLoop [trackOk, sampleTrack] true (2 * ([trackOk, sampleTrack].length + 1))
        [trackOk, sampleTrack] 0).2 = false ∧
    mainLoop [trackOk, sampleTrack] false ([trackOk, sampleTrack].length + 1 + 0)
        [trackOk, sampleTrack] 0 = (passEvents [trackOk, sampleTrack] 0, true) ∧
    streamedIndices (passEvents [trackOk, sampleTrack] 0) =
      List.range [trackOk, sampleTrack].length :=
  loop_wraps_and_done [trackOk, sampleTrack] 2 0 (by decide) (by decide)

/-- C7 counterexample.  The claim says a pipeline error is logged (at least
one diagnostic line) before the Supervisor advances.  In the code the error of
`cmd.Run()` is discarded and nothing is printed in reaction to it
(the commented-out stderr wiring at main.go line 188 is disabled): the whole
event trace with the failing pipeline is identical to the trace with the same
entry succeeding, and the only lines emitted during the failing iteration are
the two printed before the pipeline ran, with nothing after the write — the
non-zero exit is swallowed without a log line. -/
theorem pipeline_error_unlogged :
    mainLoop [pipeFail] false 2 [pipeFail] 0 =
      mainLoop [setRunOk true pipeFail] false 2 [setRunOk true pipeFail] 0 ∧
    (mainLoop [pipeFail] false 2 [pipeFail] 0).1 =
      [Event.log "Read p.mp3 (~2 min)",
       Event.log (ffmpegCmdString (PlaybackDirectory ++ "p.mp3")),
       Event.write 0 [5, 6]] ∧
    pipeFail.runOk = false := by decide

/-- C7 amended.  A transcode pipeline error never aborts the session and the
Supervisor advances to the next candidate exactly as on success, but no
diagnostic is emitted for the failure: the exit status is discarded, so the
per-track events and the whole loop behaviour are independent of every
pipeline outcome. -/
theorem pipeline_error_silently_skipped (b : Bool) (all : List Entry) (loop : Bool) :
    (∀ (e : Entry) (idx : Nat), entryEvents (setRunOk b e) idx = entryEvents e idx) ∧
    (∀ (fuel : Nat) (suffix : List Entry) (idx : Nat),
      mainLoop (all.map (setRunOk b)) loop fuel (suffix.map (setRunOk b)) idx =
        mainLoop all loop fuel suffix idx) :=
  ⟨fun e idx => entryEvents_setRunOk b e idx,
   fun fuel suffix idx => mainLoop_setRunOk b all loop fuel suffix idx⟩

/-- C8.  The three fatal failure categories terminate with distinct nonzero
exit statuses — directory unreadable exits 1, dial failure exits 2, handshake
rejection exits 3 — and each path emits at least one diagnostic line before
exiting. -/
theorem fatal_exit_codes (dOk : Bool) (dialErr : String) (reply : List Char)
    (files : List Entry) (loop : Bool) (fuel : Nat) :
    ((yakimaRun false dOk dialErr reply files loop fuel).1 = some 1 ∧
      (yakimaRun false dOk dialErr reply files loop fuel).2 ≠ []) ∧
    ((yakimaRun true false dialErr reply files loop fuel).1 = some 2 ∧
      (yakimaRun true false dialErr reply files loop fuel).2 ≠ []) ∧
    (handshakeReady reply = false →
      (yakimaRun true true dialErr reply files loop fuel).1 = some 3 ∧
      (yakimaRun true true dialErr reply files loop fuel).2 ≠ []) ∧
    ((1 : Nat) ≠ 2 ∧ (2 : Nat) ≠ 3 ∧ (1 : Nat) ≠ 3 ∧
      (1 : Nat) ≠ 0 ∧ (2 : Nat) ≠ 0 ∧ (3 : Nat) ≠ 0) := by
  refine ⟨⟨by simp [yakimaRun], by simp [yakimaRun]⟩,
          ⟨by simp [yakimaRun], by simp [yakimaRun]⟩,
          fun h => ⟨by simp [yakimaRun, h], by simp [yakimaRun, h]⟩,
          by decide⟩

/-- Witness for the C8 theorem: a 401 reply triggers the handshake-rejection
exit 3 with a diagnostic. -/
theorem fatal_exit_codes_witness :
    (yakimaRun true true "err" ("HTTP/1.1 401 Unauthorized".toList) [] false 0).1 = some 3 ∧
    (yakimaRun true true "err" ("HTTP/1.1 401 Unauthorized".toList) [] false 0).2 ≠ [] :=
  (fatal_exit_codes true "err" ("HTTP/1.1 401 Unauthorized".toList) [] false 0).2.2.1 (by decide)

/-- C9.  No audio payload byte is ever written while the session is not
ready: whenever the handshake reply lacks the continuation substring, the
audio bytes placed on the connection are exactly none — whatever the earlier
stages did — and in particular the successfully dialed process exits with the
handshake-rejection status 3. -/
theorem no_audio_before_ready (d1 d2 : Bool) (dialErr : String) (reply : List Char)
    (files : List Entry) (loop : Bool) (fuel : Nat)
    (h : handshakeReady reply = false) :
    audioBytesOf (yakimaRun d1 d2 dialErr reply files loop fuel).2 = [] ∧
    (d1 = true → d2 = true →
      (yakimaRun d1 d2 dialErr reply files loop fuel).1 = some 3) := by
  cases d1 <;> cases d2 <;> simp [yakimaRun, h, audioBytesOf]

/-- Witness for the C9 theorem: an empty read, a nonempty playable listing
with Loop=true — still zero audio bytes and exit 3. -/
theorem no_audio_before_ready_witness :
    audioBytesOf (yakimaRun true true "err2" ([] : List Char) [trackOk] true 7).2 = [] ∧
    ((true : Bool) = true → (true : Bool) = true →
      (yakimaRun true true "err2" ([] : List Char) [trackOk] true 7).1 = some 3) :=
  no_audio_before_ready true true "err2" [] [trackOk] true 7 (by decide)

/-- C10.  For every successfully probed file the channel mode is "stereo"
exactly when the probed Channel(s) parameter equals the string "2", and "mono"
for every other value (empty, unparseable, multichannel counts such as "6"
included); the field is always one of exactly these two strings. -/
theorem channelMode_stereo_iff (pathToFile : String) (p : ProbeParams) (a : AudioFile)
    (h : readAudioFile pathToFile (some p) = some a) :
    (a.originalQuality.channelMode = "stereo" ↔ p.channels = "2") ∧
    (p.channels ≠ "2" → a.originalQuality.channelMode = "mono") ∧
    (a.originalQuality.channelMode = "stereo" ∨ a.originalQuality.channelMode = "mono") := by
  simp only [readAudioFile, Option.some.injEq] at h
  subst h
  by_cases hc : p.channels = "2" <;> simp [hc]

/-- Witness for the C10 theorem: a six-channel probe yields "mono". -/
theorem channelMode_stereo_iff_witness :
    audioSix.originalQuality.channelMode = "mono" :=
  (channelMode_stereo_iff "/home/alis/Music/track.flac" probeSix audioSix (by decide)).2.1
    (by decide)
